import Mathlib

/-
  Verification development for src/app.py (mcp-cursor interactive chat client).

  Shallow embedding conventions:
  * JSON documents (json.dump / json.load round-trip values) are `JValue`.
  * Python dicts with string keys are association lists `List (String × α)`
    with `getKey` / `setKey` (insertion order preserved, update in place,
    matching CPython dict semantics).
  * The filesystem is an association list from path to `FileContent`; a file
    can hold parsed JSON or be `malformed` (json.load would raise).
  * External collaborators (MCPAgent.run, MCPClient) are parameters: the
    agent invocation is an oracle `AgentRun`, the client an explicit record.
  * Anything displayed on the console that a claim observes becomes an
    `Event`; purely cosmetic banner prints are not modelled.
-/

namespace App

/-- JSON values, as produced and consumed by json.dump / json.load in app.py. -/
inductive JValue where
  | jnull
  | jbool (b : Bool)
  | jint (n : Int)
  | jstr (s : String)
  | jarr (elems : List JValue)
  | jobj (fields : List (String × JValue))

/-- Python truthiness of a JSON value; app.py line 52 tests
`if not self.agent.conversation_history`. -/
def JValue.falsy : JValue → Bool
  | .jnull => true
  | .jbool b => !b
  | .jint n => n == 0
  | .jstr s => s.data.isEmpty
  | .jarr elems => elems.isEmpty
  | .jobj fields => fields.isEmpty

/-- Dict lookup `d[k]` (as an Option): first binding whose key equals `k`. -/
def getKey {α : Type} : List (String × α) → String → Option α
  | [], _ => none
  | (k2, v2) :: rest, k => if k2 = k then some v2 else getKey rest k

/-- Dict update `d[k] = v`: replaces the existing binding in place, else appends. -/
def setKey {α : Type} : List (String × α) → String → α → List (String × α)
  | [], k, v => [(k, v)]
  | (k2, v2) :: rest, k, v =>
      if k2 = k then (k, v) :: rest else (k2, v2) :: setKey rest k v

theorem getKey_setKey_self {α : Type} (l : List (String × α)) (k : String) (v : α) :
    getKey (setKey l k v) k = some v := by
  induction l with
  | nil => simp [setKey, getKey]
  | cons p rest ih =>
    obtain ⟨k2, v2⟩ := p
    by_cases h : k2 = k
    · simp [setKey, h, getKey]
    · simp [setKey, h, getKey, ih]

theorem getKey_setKey_ne {α : Type} (l : List (String × α)) (k k2 : String) (v : α)
    (h : k2 ≠ k) : getKey (setKey l k v) k2 = getKey l k2 := by
  have hk : k ≠ k2 := fun hh => h hh.symm
  induction l with
  | nil => simp [setKey, getKey, hk]
  | cons p rest ih =>
    obtain ⟨k3, v3⟩ := p
    by_cases h3 : k3 = k
    · subst h3
      simp [setKey, getKey, hk]
    · simp [setKey, h3, getKey, ih]

theorem length_setKey_of_fresh {α : Type} (l : List (String × α)) (k : String) (v : α)
    (h : getKey l k = none) : (setKey l k v).length = l.length + 1 := by
  induction l with
  | nil => simp [setKey]
  | cons p rest ih =>
    obtain ⟨k2, v2⟩ := p
    by_cases h2 : k2 = k
    · simp [getKey, h2] at h
    · simp [getKey, h2] at h
      simp [setKey, h2, ih h]

/-- Contents of a file on disk: parsed JSON, or text json.load rejects. -/
inductive FileContent where
  | json (v : JValue)
  | malformed

/-- The filesystem: a map from path to file contents. -/
abbrev FS := List (String × FileContent)

/-- Opening a path for writing and dumping `content` (whole-file overwrite). -/
def writeFile (fs : FS) (path : String) (content : FileContent) : FS :=
  setKey fs path content

/-- In-memory side of ChatConfig (app.py lines 16-25): the config path and the
current configuration dict. -/
structure ChatConfig where
  config_path : String
  config : List (String × JValue)

/-- ChatConfig.default_config (app.py lines 19-24). -/
def default_config : List (String × JValue) :=
  [("model", .jstr "qwen-qwq-32b"),
   ("max_steps", .jint 15),
   ("history_file", .jstr "chat_history"),
   ("config_file", .jstr "browser_mcp.json")]

/-- ChatConfig.save_config (app.py lines 35-37): whole-document json.dump. -/
def save_config (fs : FS) (config_path : String) (config : List (String × JValue)) : FS :=
  writeFile fs config_path (.json (.jobj config))

/-- ChatConfig.load_config (app.py lines 27-33): only FileNotFoundError is
caught (defaults are written and returned); any other failure, such as
malformed JSON, propagates to the caller. -/
def load_config (fs : FS) (config_path : String) : Except String (FS × JValue) :=
  match getKey fs config_path with
  | none => .ok (save_config fs config_path default_config, .jobj default_config)
  | some .malformed => .error "JSONDecodeError"
  | some (.json v) => .ok (fs, v)

/-- ChatConfig.update_config (app.py lines 39-41): set the key in memory, then
persist the whole configuration document. -/
def update_config (fs : FS) (c : ChatConfig) (key : String) (value : JValue) :
    FS × ChatConfig :=
  let c2 : ChatConfig := { c with config := setKey c.config key value }
  (save_config fs c2.config_path c2.config, c2)

/-- Python str.isdigit restricted to the ASCII strings that actually flow here
(whitespace-split tokens are never empty; on digits it agrees with CPython). -/
def pyIsDigit (s : String) : Bool :=
  !s.data.isEmpty && s.data.all Char.isDigit

/-- Python int(s) for an all-digits string. -/
def pyNat (s : String) : Nat :=
  s.data.foldl (fun n c => 10 * n + (c.toNat - 48)) 0

/-- Python str.lower for the ASCII strings compared here. -/
def lowerStr (s : String) : String :=
  String.mk (s.data.map Char.toLower)

/-- The value coercion in the /config handler (app.py lines 152-156):
all-digits text becomes an integer, case-insensitive true/false becomes a
boolean, anything else stays text. -/
def coerceValue (v : String) : JValue :=
  if pyIsDigit v then .jint (pyNat v)
  else if lowerStr v == "true" || lowerStr v == "false" then
    .jbool (lowerStr v == "true")
  else .jstr v

/-- The body of the /config command (app.py lines 149-157): coerce the textual
value, then ChatConfig.update_config. -/
def configCommand (fs : FS) (c : ChatConfig) (key vtext : String) : FS × ChatConfig :=
  update_config fs c key (coerceValue vtext)

/-- The slice of MCPAgent state this client constructs and touches
(app.py lines 101-106): constructor arguments plus the conversation history
the session exports/imports. The history is opaque to the client, so it is an
arbitrary JSON value here; the library starts it empty. -/
structure Agent where
  model : JValue
  max_steps : JValue
  memory_enabled : Bool
  conversation_history : JValue

/-- ChatSession (app.py lines 43-48): holds the agent and the archive
directory. start_time is never read and is omitted. -/
structure ChatSession where
  agent : Agent
  history_path : String

/-- The hard-coded archive directory (app.py line 47). -/
def chatHistoriesDir : String := "chat_histories"

/-- pathlib `dir / file` for the relative names used here. -/
def joinPath (dir file : String) : String := dir ++ "/" ++ file

/-- ChatSession.export_history (app.py lines 50-66). The timestamp
(datetime.now().strftime at second granularity) is an input. -/
def export_history (fs : FS) (s : ChatSession) (timestamp : String) : FS × String :=
  if s.agent.conversation_history.falsy then (fs, "No history to export.")
  else
    let filename := joinPath s.history_path ("chat_history_" ++ timestamp ++ ".json")
    let history_data :=
      JValue.jobj [("timestamp", .jstr timestamp),
                   ("history", s.agent.conversation_history)]
    (writeFile fs filename (.json history_data), "History exported to " ++ filename)

/-- ChatSession.import_history (app.py lines 68-77): every failure inside the
try block (missing file, malformed JSON, wrong shape, missing key) is caught
and reported as a status string; only success assigns the history. -/
def import_history (fs : FS) (s : ChatSession) (filename : String) : ChatSession × String :=
  match getKey fs (joinPath s.history_path filename) with
  | none => (s, "Error importing history: FileNotFoundError")
  | some .malformed => (s, "Error importing history: JSONDecodeError")
  | some (.json (.jobj fields)) =>
    match getKey fields "history" with
    | some h =>
        ({ s with agent := { s.agent with conversation_history := h } },
         "History imported successfully.")
    | none => (s, "Error importing history: KeyError")
  | some (.json _) => (s, "Error importing history: TypeError")

/-- Outcome of routing one input line (app.py lines 126-175). `indexError` is
the uncaught exception at line 128: a bare marker gives `cmd_parts = []`, and
`cmd_parts[0]` raises IndexError. -/
inductive Routed where
  | chat
  | indexError
  | exit
  | clear
  | exportCmd
  | importCmd (filename : String)
  | configCmd (key value : String)
  | help
  | unknown
deriving DecidableEq

/-- The exact whitespace set Python str.split() separates on
(Py_UNICODE_ISSPACE): tab, LF, \x0b, \x0c, CR, \x1c-\x1f, space, \x85,
\xa0, and the Unicode space characters U+1680, U+2000-U+200A, U+2028,
U+2029, U+202F, U+205F, U+3000. -/
def pyIsSpace (c : Char) : Bool :=
  let n := c.toNat
  (9 ≤ n && n ≤ 13) || (28 ≤ n && n ≤ 32) || n == 0x85 || n == 0xa0 ||
  n == 0x1680 || (0x2000 ≤ n && n ≤ 0x200a) || n == 0x2028 || n == 0x2029 ||
  n == 0x202f || n == 0x205f || n == 0x3000

/-- Python str.split() with no separator: split on runs of Python
whitespace, dropping empty pieces. `acc` holds the current word reversed. -/
def wordsAux : List Char → List Char → List String
  | [], acc => if acc.isEmpty then [] else [String.mk acc.reverse]
  | c :: cs, acc =>
    if pyIsSpace c then
      if acc.isEmpty then wordsAux cs [] else String.mk acc.reverse :: wordsAux cs []
    else wordsAux cs (c :: acc)

/-- `user_input[1:].split()` applied to the characters after the marker. -/
def splitWs (cs : List Char) : List String := wordsAux cs []

/-- The elif chain over `cmd = cmd_parts[0].lower()` (app.py lines 130-175).
`import` requires `len(cmd_parts) > 1` and `config` requires
`len(cmd_parts) > 2` (lines 144, 149); when the guard fails the chain falls
through to the unknown-command branch, exactly as the remaining elif tests
cannot match those command names. -/
def routeTokens (c : String) (rest : List String) : Routed :=
  let cmd := lowerStr c
  if cmd == "exit" || cmd == "quit" then .exit
  else if cmd == "clear" then .clear
  else if cmd == "export" then .exportCmd
  else if cmd == "import" then
    match rest with
    | f :: _ => .importCmd f
    | [] => .unknown
  else if cmd == "config" then
    match rest with
    | k :: v :: _ => .configCmd k v
    | _ => .unknown
  else if cmd == "help" then .help
  else .unknown

/-- Routing on the character list: `user_input.startswith('/')` then
`cmd_parts = user_input[1:].split()` and `cmd_parts[0]` (app.py 126-128). -/
def routeChars : List Char → Routed
  | [] => .chat
  | c :: restChars =>
    if c = '/' then
      match splitWs restChars with
      | [] => .indexError
      | w :: rest => routeTokens w rest
    else .chat

/-- Classify one line of user input. -/
def route (s : String) : Routed := routeChars s.data

/-- Console observations a claim can see, plus the bulk session close. -/
inductive Event where
  | print (s : String)
  | configUpdated (key : String) (value : JValue)
  | closeAllSessions

def unknownCmdMsg : String := "Unknown command. Type /help for available commands."

def helpText : String :=
  "Available Commands: /exit /quit /clear /export /import /config /help"

/-- The external `await agent.run(user_input)` (app.py line 185): given the
agent state and the message, either a response together with the mutated
agent, or an exception. -/
def AgentRun : Type := Agent → String → Except String (String × Agent)

/-- State threaded through the chat loop: filesystem, config store, agent,
and the session archive directory. -/
structure LoopState where
  fs : FS
  config : ChatConfig
  agent : Agent
  historyPath : String

/-- Result of one loop iteration: continue with a new state, break out of the
loop (exit/quit), or an exception escaping to the handler at line 191. -/
inductive StepOut where
  | next (st : LoopState) (evs : List Event)
  | exitLoop (evs : List Event)
  | fatalErr (msg : String) (evs : List Event)

def StepOut.events : StepOut → List Event
  | .next _ evs => evs
  | .exitLoop evs => evs
  | .fatalErr _ evs => evs

/-- The per-command bodies of the loop (app.py lines 130-189). -/
def dispatch (ar : AgentRun) (st : LoopState) (r : Routed) (line time : String) :
    StepOut :=
  match r with
  | .chat =>
    match ar st.agent line with
    | .ok pr => .next { st with agent := pr.2 } [Event.print ("Assistant: " ++ pr.1)]
    | .error e => .next st [Event.print ("Error: " ++ e)]
  | .indexError => .fatalErr "IndexError: list index out of range" []
  | .exit => .exitLoop [Event.print "Ending conversation..."]
  | .clear =>
      .next { st with agent := { st.agent with conversation_history := .jarr [] } }
        [Event.print "Conversation history cleared."]
  | .exportCmd =>
      .next { st with fs := (export_history st.fs ⟨st.agent, st.historyPath⟩ time).1 }
        [Event.print (export_history st.fs ⟨st.agent, st.historyPath⟩ time).2]
  | .importCmd f =>
      .next { st with agent := (import_history st.fs ⟨st.agent, st.historyPath⟩ f).1.agent }
        [Event.print (import_history st.fs ⟨st.agent, st.historyPath⟩ f).2]
  | .configCmd k v =>
      .next { st with fs := (configCommand st.fs st.config k v).1,
                      config := (configCommand st.fs st.config k v).2 }
        [Event.configUpdated k (coerceValue v)]
  | .help => .next st [Event.print helpText]
  | .unknown => .next st [Event.print unknownCmdMsg]

/-- One iteration of the while loop on input `line`, with `time` the wall
clock an export would read. -/
def chatTurn (ar : AgentRun) (st : LoopState) (line time : String) : StepOut :=
  dispatch ar st (route line) line time

/-- How the loop ended: break via exit/quit, or an exception reaching the
handler at app.py line 191 (exhausted input models EOFError from
console.input). -/
inductive Outcome where
  | exited
  | fatal (msg : String)

/-- The while loop (app.py lines 122-189) over a script of (line, time)
pairs: collected events plus how the loop ended. -/
def chatLoop (ar : AgentRun) (st : LoopState) :
    List (String × String) → List Event × Outcome
  | [] => ([], Outcome.fatal "EOFError")
  | (line, t) :: rest =>
    match chatTurn ar st line t with
    | .next st2 evs =>
        (evs ++ (chatLoop ar st2 rest).1, (chatLoop ar st2 rest).2)
    | .exitLoop evs => (evs, Outcome.exited)
    | .fatalErr m evs => (evs, Outcome.fatal m)

/-- The slice of MCPClient this program observes: its session collection. -/
structure Client where
  sessions : List String

/-- The finally block (app.py lines 194-199): close_all_sessions is invoked
only when `client.sessions` is truthy, i.e. non-empty. -/
def shutdownEvents (client : Client) : List Event :=
  if client.sessions.isEmpty then []
  else
    [Event.print "Closing active sessions...",
     Event.closeAllSessions,
     Event.print "Sessions closed successfully."]

/-- Agent construction from the configuration (app.py lines 98-106): reads
only the model and max_steps keys; a missing key raises KeyError. The
conversation history starts empty (library default with memory enabled). -/
def agentFromConfig (cfg : List (String × JValue)) : Option Agent :=
  match getKey cfg "model", getKey cfg "max_steps" with
  | some m, some ms =>
      some { model := m, max_steps := ms, memory_enabled := true,
             conversation_history := .jarr [] }
  | _, _ => none

/-- Everything from app.py line 98 to the end of the finally block, i.e. the
region of run_memory_chat in which the tool-client already exists: build the
agent and session, run the loop, report a fatal error if one escaped, and
then always run the guarded shutdown. -/
def runFromClient (ar : AgentRun) (client : Client) (cfg : ChatConfig) (fs : FS)
    (inputs : List (String × String)) : List Event :=
  let body :=
    match agentFromConfig cfg.config with
    | none => [Event.print "Fatal error: KeyError"]
    | some agent =>
      let st : LoopState :=
        { fs := fs, config := cfg, agent := agent, historyPath := chatHistoriesDir }
      match (chatLoop ar st inputs).2 with
      | Outcome.exited => (chatLoop ar st inputs).1
      | Outcome.fatal m => (chatLoop ar st inputs).1 ++ [Event.print ("Fatal error: " ++ m)]
  body ++ shutdownEvents client

/-- run_memory_chat (app.py lines 79-199) plus the handler under
`__main__`: config load happens before the try block (a malformed config file
propagates to the top-level handler), the API key is checked next, and the
tool-client construction result is an input, since MCPClient is external. -/
def run_memory_chat (ar : AgentRun) (clientRes : Except String Client)
    (apiKey : Option String) (fs0 : FS) (inputs : List (String × String)) :
    List Event :=
  match load_config fs0 "chat_config.json" with
  | .error e => [Event.print ("Unexpected error: " ++ e)]
  | .ok pr =>
    match apiKey with
    | none => [Event.print "Error: GROQ_API_KEY not found in environment variables."]
    | some _ =>
      match pr.2 with
      | .jobj fields =>
        match getKey fields "config_file" with
        | none => [Event.print "Fatal error: KeyError"]
        | some _ =>
          match clientRes with
          | .error e => [Event.print ("Fatal error: " ++ e)]
          | .ok client => runFromClient ar client ⟨"chat_config.json", fields⟩ pr.1 inputs
      | _ => [Event.print "Fatal error: TypeError"]

/-- Number of close_all_sessions invocations recorded in a trace. -/
def countClose : List Event → Nat
  | [] => 0
  | Event.closeAllSessions :: rest => countClose rest + 1
  | _ :: rest => countClose rest

/-- An agent invocation that always succeeds. -/
def arOk : AgentRun := fun a _m => Except.ok ("ok", a)

/-- An agent invocation that always raises. -/
def arFail : AgentRun := fun _a _m => Except.error "boom"

/-- The agent as built from the default configuration. -/
def agent0 : Agent :=
  { model := .jstr "qwen-qwq-32b", max_steps := .jint 15,
    memory_enabled := true, conversation_history := .jarr [] }

/-- An agent holding a one-turn conversation history. -/
def agentH : Agent :=
  { agent0 with conversation_history := .jarr [.jobj [("role", .jstr "user"), ("content", .jstr "hi")]] }

/-- A session over the empty-history agent. -/
def sE : ChatSession := ⟨agent0, chatHistoriesDir⟩

/-- A session over the agent with history. -/
def sH : ChatSession := ⟨agentH, chatHistoriesDir⟩

/-- The configuration store right after first load on a fresh machine. -/
def cfg0 : ChatConfig := ⟨"chat_config.json", default_config⟩

/-- Loop state at startup under the default configuration. -/
def st0 : LoopState :=
  { fs := [], config := cfg0, agent := agent0, historyPath := chatHistoriesDir }

/-- A tool-client whose session collection is empty. -/
def client0 : Client := ⟨[]⟩

/-- A tool-client with one live session. -/
def client1 : Client := ⟨["session1"]⟩

theorem countClose_cons_print (s : String) (r : List Event) :
    countClose (Event.print s :: r) = countClose r := rfl

theorem countClose_cons_cfg (k : String) (v : JValue) (r : List Event) :
    countClose (Event.configUpdated k v :: r) = countClose r := rfl

theorem countClose_cons_close (r : List Event) :
    countClose (Event.closeAllSessions :: r) = countClose r + 1 := rfl

theorem countClose_append (a b : List Event) :
    countClose (a ++ b) = countClose a + countClose b := by
  induction a with
  | nil => simp [countClose]
  | cons x xs ih =>
    cases x with
    | print s => rw [List.cons_append, countClose_cons_print, countClose_cons_print, ih]
    | configUpdated k v => rw [List.cons_append, countClose_cons_cfg, countClose_cons_cfg, ih]
    | closeAllSessions =>
      rw [List.cons_append, countClose_cons_close, countClose_cons_close, ih]
      omega

theorem countClose_turnEvents (ar : AgentRun) (st : LoopState) (line t : String) :
    countClose (chatTurn ar st line t).events = 0 := by
  unfold chatTurn
  cases route line with
  | chat =>
    cases har : ar st.agent line with
    | ok pr => simp [dispatch, har, StepOut.events, countClose]
    | error e => simp [dispatch, har, StepOut.events, countClose]
  | indexError => simp [dispatch, StepOut.events, countClose]
  | exit => simp [dispatch, StepOut.events, countClose]
  | clear => simp [dispatch, StepOut.events, countClose]
  | exportCmd => simp [dispatch, StepOut.events, countClose]
  | importCmd f => simp [dispatch, StepOut.events, countClose]
  | configCmd k v => simp [dispatch, StepOut.events, countClose]
  | help => simp [dispatch, StepOut.events, countClose]
  | unknown => simp [dispatch, StepOut.events, countClose]

theorem countClose_chatLoop (ar : AgentRun) :
    ∀ (inputs : List (String × String)) (st : LoopState),
      countClose (chatLoop ar st inputs).1 = 0 := by
  intro inputs
  induction inputs with
  | nil => intro st; simp [chatLoop, countClose]
  | cons p rest ih =>
    intro st
    obtain ⟨line, t⟩ := p
    have he := countClose_turnEvents ar st line t
    cases hturn : chatTurn ar st line t with
    | next st2 evs =>
      rw [hturn] at he
      simp only [StepOut.events] at he
      simp [chatLoop, hturn, countClose_append, he, ih]
    | exitLoop evs =>
      rw [hturn] at he
      simp only [StepOut.events] at he
      simp [chatLoop, hturn, he]
    | fatalErr m evs =>
      rw [hturn] at he
      simp only [StepOut.events] at he
      simp [chatLoop, hturn, he]

theorem routeTokens_ne_indexError (c : String) (rest : List String) :
    routeTokens c rest ≠ Routed.indexError := by
  unfold routeTokens
  repeat' split
  all_goals intro h
  all_goals simp only [] at h
  all_goals split_ifs at h

/-- Claim C1 counterexample: the input consisting of the bare command marker
— likewise the marker followed only by whitespace, such as a vertical tab —
makes the router itself raise (cmd_parts[0] on an empty split), and the loop
terminates through the fatal handler instead of returning to await input. -/
theorem route_bare_marker_crashes_loop :
    route "/" = Routed.indexError ∧
    route (String.mk ['/', Char.ofNat 11]) = Routed.indexError ∧
    (chatLoop arOk st0 [("/", "t"), ("hello", "t")]).2
      = Outcome.fatal "IndexError: list index out of range" :=
  ⟨rfl, rfl, rfl⟩

/-- Claim C1 (amended): for every input line starting with the command marker
whose remainder contains at least one whitespace-separated token, routing
never fails, and a line routed as an unrecognized (or underspecified) command
only produces the unknown-command notice, leaving the state unchanged so the
loop returns to awaiting input. -/
theorem routing_total_on_nonempty_tokens (s : String) (cs : List Char)
    (h1 : s.data = '/' :: cs) (h2 : splitWs cs ≠ []) :
    route s ≠ Routed.indexError ∧
    (∀ (ar : AgentRun) (st : LoopState) (t : String), route s = Routed.unknown →
      chatTurn ar st s t = StepOut.next st [Event.print unknownCmdMsg]) := by
  refine ⟨?_, ?_⟩
  · unfold route
    rw [h1]
    rcases hw : splitWs cs with _ | ⟨w, rest⟩
    · exact absurd hw h2
    · simp [routeChars, hw, routeTokens_ne_indexError w rest]
  · intro ar st t hu
    unfold chatTurn
    rw [hu]
    rfl

/-- Claim C1 witness: a concrete unrecognized command. -/
theorem routing_total_on_nonempty_tokens_inst :
    route "/bogus" ≠ Routed.indexError ∧
    chatTurn arOk st0 "/bogus" "t" = StepOut.next st0 [Event.print unknownCmdMsg] :=
  ⟨(routing_total_on_nonempty_tokens "/bogus" "bogus".data rfl (by decide)).1,
   (routing_total_on_nonempty_tokens "/bogus" "bogus".data rfl (by decide)).2 arOk st0 "t" rfl⟩

/-- Claim C2 counterexample: a run in which the tool-client was constructed
(with an empty session collection) and the loop exited via /exit, yet
close_all_sessions is never invoked, because the finally block also tests
`client.sessions`. -/
theorem close_skipped_without_sessions :
    countClose (runFromClient arOk client0 cfg0 [] [("/exit", "t")]) = 0 ∧
    (chatLoop arOk st0 [("/exit", "t")]).2 = Outcome.exited :=
  ⟨rfl, rfl⟩

/-- Claim C2 (amended): on every exit path of the region after the
tool-client has been constructed — exit/quit, a fatal in-loop error, agent
construction failure, or exhausted input — the shutdown sequence invokes
close_all_sessions exactly once, provided the client has at least one
session; with an empty session collection the close call is skipped. -/
theorem close_attempted_once_with_sessions (ar : AgentRun) (client : Client)
    (cfg : ChatConfig) (fs : FS) (inputs : List (String × String))
    (h : client.sessions ≠ []) :
    countClose (runFromClient ar client cfg fs inputs) = 1 := by
  have hs : countClose (shutdownEvents client) = 1 := by
    simp [shutdownEvents, List.isEmpty_iff, h, countClose]
  unfold runFromClient
  cases hA : agentFromConfig cfg.config with
  | none => simp [countClose_append, hs, countClose]
  | some agent =>
    cases hout : (chatLoop ar
        { fs := fs, config := cfg, agent := agent, historyPath := chatHistoriesDir }
        inputs).2 with
    | exited =>
      simp [hout, countClose_append, hs, countClose_chatLoop, countClose_cons_print]
    | fatal m =>
      simp [hout, countClose_append, hs, countClose_chatLoop, countClose_cons_print]

/-- Claim C2 witness: a run with one live session and a single /exit turn. -/
theorem close_attempted_once_with_sessions_inst :
    client1.sessions ≠ [] ∧
    countClose (runFromClient arOk client1 cfg0 [] [("/exit", "t")]) = 1 :=
  ⟨by decide,
   close_attempted_once_with_sessions arOk client1 cfg0 [] [("/exit", "t")] (by decide)⟩

/-- Claim C3: the /config handler stores the coerced value (digits to
integer, case-insensitive true/false to boolean, else the text) under the
key and persists the whole document at once, so loading the configuration
file back yields exactly the in-memory document, with the coerced value
under the key. -/
theorem config_update_coerces_and_persists (fs : FS) (c : ChatConfig) (k vtext : String) :
    getKey (configCommand fs c k vtext).2.config k = some (coerceValue vtext) ∧
    load_config (configCommand fs c k vtext).1 c.config_path
      = Except.ok ((configCommand fs c k vtext).1,
                   JValue.jobj (configCommand fs c k vtext).2.config) := by
  constructor
  · simp [configCommand, update_config, getKey_setKey_self]
  · simp [configCommand, update_config, load_config, save_config, writeFile,
          getKey_setKey_self]

/-- Claim C4: exporting a non-empty history writes {timestamp, history} to
the timestamped file under the archive directory, and importing that file
name afterwards (into any session over the same archive directory) replaces
the agent history with exactly the exported history and reports success. -/
theorem export_import_roundtrip (fs : FS) (s s2 : ChatSession) (ts : String)
    (hpath : s2.history_path = s.history_path)
    (hne : s.agent.conversation_history.falsy = false) :
    getKey (export_history fs s ts).1
        (joinPath s.history_path ("chat_history_" ++ ts ++ ".json"))
      = some (.json (.jobj [("timestamp", .jstr ts),
                            ("history", s.agent.conversation_history)])) ∧
    (import_history (export_history fs s ts).1 s2
        ("chat_history_" ++ ts ++ ".json")).1.agent.conversation_history
      = s.agent.conversation_history ∧
    (import_history (export_history fs s ts).1 s2
        ("chat_history_" ++ ts ++ ".json")).2
      = "History imported successfully." := by
  have hexp : (export_history fs s ts).1
      = writeFile fs (joinPath s.history_path ("chat_history_" ++ ts ++ ".json"))
          (.json (.jobj [("timestamp", .jstr ts),
                         ("history", s.agent.conversation_history)])) := by
    simp [export_history, hne]
  have hget : getKey (export_history fs s ts).1
      (joinPath s.history_path ("chat_history_" ++ ts ++ ".json"))
      = some (.json (.jobj [("timestamp", .jstr ts),
                            ("history", s.agent.conversation_history)])) := by
    rw [hexp]
    exact getKey_setKey_self fs _ _
  have himp : import_history (export_history fs s ts).1 s2
      ("chat_history_" ++ ts ++ ".json")
      = ({ s2 with agent := { s2.agent with
              conversation_history := s.agent.conversation_history } },
         "History imported successfully.") := by
    unfold import_history
    rw [hpath, hget]
    rfl
  exact ⟨hget, by rw [himp], by rw [himp]⟩

/-- Claim C4 witness: round trip of a concrete one-turn history. -/
theorem export_import_roundtrip_inst :
    (import_history (export_history [] sH "20250101_120000").1 sE
        ("chat_history_" ++ "20250101_120000" ++ ".json")).1.agent.conversation_history
      = sH.agent.conversation_history :=
  (export_import_roundtrip [] sH sE "20250101_120000" rfl rfl).2.1

/-- Claim C5: when import fails — the file is missing, its JSON is
malformed, or the parsed document lacks the history field — the status is a
descriptive error string and the session (hence the agent history) is left
unchanged. -/
theorem import_failure_preserves_history (fs : FS) (s : ChatSession) (fname : String)
    (h : getKey fs (joinPath s.history_path fname) = none ∨
         getKey fs (joinPath s.history_path fname) = some FileContent.malformed ∨
         (∃ fields, getKey fs (joinPath s.history_path fname)
             = some (FileContent.json (JValue.jobj fields)) ∧
           getKey fields "history" = none)) :
    (import_history fs s fname).1 = s ∧
    ∃ e, (import_history fs s fname).2 = "Error importing history: " ++ e := by
  rcases h with h | h | ⟨fields, hf, hh⟩
  · have him : import_history fs s fname
        = (s, "Error importing history: FileNotFoundError") := by
      unfold import_history
      rw [h]
    rw [him]
    exact ⟨rfl, "FileNotFoundError", rfl⟩
  · have him : import_history fs s fname
        = (s, "Error importing history: JSONDecodeError") := by
      unfold import_history
      rw [h]
    rw [him]
    exact ⟨rfl, "JSONDecodeError", rfl⟩
  · have him : import_history fs s fname
        = (s, "Error importing history: KeyError") := by
      unfold import_history
      rw [hf]
      simp only []
      rw [hh]
    rw [him]
    exact ⟨rfl, "KeyError", rfl⟩

/-- Claim C5 witness: importing a missing file. -/
theorem import_failure_preserves_history_inst :
    (import_history [] sH "missing.json").1 = sH ∧
    ∃ e, (import_history [] sH "missing.json").2 = "Error importing history: " ++ e :=
  import_failure_preserves_history [] sH "missing.json" (Or.inl rfl)

/-- Claim C6: exporting an empty history reports nothing to export and
leaves the filesystem untouched; exporting a non-empty history writes
exactly one new file chat_history_<timestamp>.json under the archive
directory (when no collision exists: one more file, all other paths
untouched) and returns a message naming that path. -/
theorem export_empty_vs_nonempty (fs : FS) (s : ChatSession) (ts : String) :
    (s.agent.conversation_history.falsy = true →
      export_history fs s ts = (fs, "No history to export.")) ∧
    (s.agent.conversation_history.falsy = false →
      (export_history fs s ts).2
          = "History exported to "
              ++ joinPath s.history_path ("chat_history_" ++ ts ++ ".json") ∧
      (export_history fs s ts).1
          = writeFile fs (joinPath s.history_path ("chat_history_" ++ ts ++ ".json"))
              (.json (.jobj [("timestamp", .jstr ts),
                             ("history", s.agent.conversation_history)])) ∧
      (getKey fs (joinPath s.history_path ("chat_history_" ++ ts ++ ".json")) = none →
        ((export_history fs s ts).1).length = fs.length + 1) ∧
      (∀ p, p ≠ joinPath s.history_path ("chat_history_" ++ ts ++ ".json") →
        getKey (export_history fs s ts).1 p = getKey fs p)) := by
  constructor
  · intro h
    simp [export_history, h]
  · intro h
    have hexp : (export_history fs s ts).1
        = writeFile fs (joinPath s.history_path ("chat_history_" ++ ts ++ ".json"))
            (.json (.jobj [("timestamp", .jstr ts),
                           ("history", s.agent.conversation_history)])) := by
      simp [export_history, h]
    refine ⟨by simp [export_history, h], hexp, ?_, ?_⟩
    · intro hf
      rw [hexp]
      exact length_setKey_of_fresh fs _ _ hf
    · intro p hp
      rw [hexp]
      exact getKey_setKey_ne fs _ p _ hp

/-- Claim C6 witness: concrete empty and non-empty exports. -/
theorem export_empty_vs_nonempty_inst :
    export_history [] sE "20250101_120000" = ([], "No history to export.") ∧
    (export_history [] sH "20250101_120000").2
      = "History exported to "
          ++ joinPath sH.history_path ("chat_history_" ++ "20250101_120000" ++ ".json") :=
  ⟨(export_empty_vs_nonempty [] sE "20250101_120000").1 rfl,
   ((export_empty_vs_nonempty [] sH "20250101_120000").2 rfl).1⟩

/-- Claim C7: loading the configuration with no file on disk writes the
defaults {model, max_steps, history_file, config_file} and returns them (and
a subsequent load reads those defaults back); any other read/parse failure —
modelled as a malformed file — propagates as an error rather than falling
back to defaults. -/
theorem load_config_defaults_and_fatal (fs : FS) (path : String) :
    (getKey fs path = none →
      load_config fs path
        = Except.ok (writeFile fs path (.json (.jobj default_config)),
                     JValue.jobj default_config) ∧
      load_config (writeFile fs path (.json (.jobj default_config))) path
        = Except.ok (writeFile fs path (.json (.jobj default_config)),
                     JValue.jobj default_config)) ∧
    (getKey fs path = some FileContent.malformed →
      ∃ e, load_config fs path = Except.error e) := by
  constructor
  · intro h
    constructor
    · simp [load_config, h, save_config]
    · simp [load_config, writeFile, getKey_setKey_self]
  · intro h
    exact ⟨"JSONDecodeError", by simp [load_config, h]⟩

/-- Claim C7 witness: an absent file and a malformed file. -/
theorem load_config_defaults_and_fatal_inst :
    load_config [] "chat_config.json"
      = Except.ok (writeFile [] "chat_config.json" (.json (.jobj default_config)),
                   JValue.jobj default_config) ∧
    ∃ e, load_config [("chat_config.json", FileContent.malformed)] "chat_config.json"
        = Except.error e :=
  ⟨((load_config_defaults_and_fatal [] "chat_config.json").1 rfl).1,
   (load_config_defaults_and_fatal [("chat_config.json", FileContent.malformed)]
       "chat_config.json").2 rfl⟩

/-- Claim C8: /import with no filename and /config with a single argument
route to the unknown-command branch, producing only the rejection notice and
leaving the whole state — agent, configuration, filesystem — unchanged. -/
theorem insufficient_args_rejected (ar : AgentRun) (st : LoopState) (t : String) :
    route "/import" = Routed.unknown ∧
    route "/config timeout" = Routed.unknown ∧
    chatTurn ar st "/import" t = StepOut.next st [Event.print unknownCmdMsg] ∧
    chatTurn ar st "/config timeout" t = StepOut.next st [Event.print unknownCmdMsg] :=
  ⟨rfl, rfl, rfl, rfl⟩

/-- Claim C9: a non-command line whose agent invocation raises is caught at
the loop boundary: the turn yields only an inline error print with the state
unchanged, and the loop carries on exactly as it would on the remaining
input. -/
theorem agent_failure_continues_loop (ar : AgentRun) (st : LoopState)
    (line t e : String) (rest : List (String × String))
    (hchat : route line = Routed.chat)
    (hfail : ar st.agent line = Except.error e) :
    chatTurn ar st line t = StepOut.next st [Event.print ("Error: " ++ e)] ∧
    chatLoop ar st ((line, t) :: rest)
      = (Event.print ("Error: " ++ e) :: (chatLoop ar st rest).1,
         (chatLoop ar st rest).2) := by
  have hturn : chatTurn ar st line t = StepOut.next st [Event.print ("Error: " ++ e)] := by
    unfold chatTurn
    rw [hchat]
    unfold dispatch
    rw [hfail]
  refine ⟨hturn, ?_⟩
  simp [chatLoop, hturn]

/-- Claim C9 witness: a failing agent call on a concrete chat line, followed
by a successfully processed /exit. -/
theorem agent_failure_continues_loop_inst :
    chatTurn arFail st0 "hello" "t" = StepOut.next st0 [Event.print ("Error: " ++ "boom")] ∧
    chatLoop arFail st0 [("hello", "t"), ("/exit", "t")]
      = (Event.print ("Error: " ++ "boom") :: (chatLoop arFail st0 [("/exit", "t")]).1,
         (chatLoop arFail st0 [("/exit", "t")]).2) :=
  agent_failure_continues_loop arFail st0 "hello" "t" "boom" [("/exit", "t")] rfl rfl

/-- Claim C10: a /config turn changes only the in-memory configuration and
the configuration file: the successor state keeps the agent and the archive
directory, every filesystem path other than the config path is untouched,
and agent construction is insensitive to the history_file key (it is stored
but never read). -/
theorem config_update_frame (ar : AgentRun) (st : LoopState) (line t k v : String)
    (hc : route line = Routed.configCmd k v) :
    chatTurn ar st line t
      = StepOut.next
          { st with fs := (configCommand st.fs st.config k v).1,
                    config := (configCommand st.fs st.config k v).2 }
          [Event.configUpdated k (coerceValue v)] ∧
    (∀ st2 evs, chatTurn ar st line t = StepOut.next st2 evs →
      st2.agent = st.agent ∧ st2.historyPath = st.historyPath) ∧
    (∀ p, p ≠ st.config.config_path →
      getKey (configCommand st.fs st.config k v).1 p = getKey st.fs p) ∧
    (∀ cfg val, agentFromConfig (setKey cfg "history_file" val) = agentFromConfig cfg) := by
  have heq : chatTurn ar st line t
      = StepOut.next
          { st with fs := (configCommand st.fs st.config k v).1,
                    config := (configCommand st.fs st.config k v).2 }
          [Event.configUpdated k (coerceValue v)] := by
    unfold chatTurn
    rw [hc]
    rfl
  refine ⟨heq, ?_, ?_, ?_⟩
  · intro st2 evs h2
    rw [heq] at h2
    cases h2
    exact ⟨rfl, rfl⟩
  · intro p hp
    simp only [configCommand, update_config, save_config, writeFile]
    exact getKey_setKey_ne st.fs _ p _ hp
  · intro cfg val
    unfold agentFromConfig
    rw [getKey_setKey_ne cfg "history_file" "model" val (by decide),
        getKey_setKey_ne cfg "history_file" "max_steps" val (by decide)]

/-- Claim C10 witness: updating the history_file key itself. -/
theorem config_update_frame_inst :
    chatTurn arOk st0 "/config history_file foo" "t"
      = StepOut.next
          { st0 with fs := (configCommand st0.fs st0.config "history_file" "foo").1,
                     config := (configCommand st0.fs st0.config "history_file" "foo").2 }
          [Event.configUpdated "history_file" (coerceValue "foo")] :=
  (config_update_frame arOk st0 "/config history_file foo" "t" "history_file" "foo" rfl).1

end App
